import Mathlib

/-!
Shallow embedding of the client-side serial-number store of the
serial-sparkle-html repository.

The embedded code is:
* `src/src/lib/serialStore.ts` — the per-domain `SerialStoreManager`
  (IndexedDB-backed record under the fixed key `data`, seed bootstrap,
  subscriber set, mutation operations, query layer);
* `src/src/components/AddSerialsForm.tsx` — `handleBulkGenerate`, the
  bulk serial-number generation entry point;
* `src/unnamed/part_013` — the `GlobalStoreManager` variant, for its
  replay-on-subscribe behaviour and its `setState` → `notifySubscribers`
  → `saveState` pipeline.

Modelling conventions: JS `Date` values and `Date.now()` timestamps are
natural numbers (a `now : Nat` clock argument is threaded through every
operation that reads the clock); the IndexedDB record under key `"data"`
is an `Option SerialStore` (`none` = record absent, i.e. `NotFound`);
the JS `Set` of subscriber callbacks is a duplicate-free `List Nat` of
callback identities in insertion order, and a delivered notification
round is recorded by appending the current subscriber list to a log.
-/

namespace SerialSparkle

/-- `SerialStatus` from the types module: `'unassigned' | 'blocked' | 'assigned'`. -/
inductive Status where
  | unassigned
  | blocked
  | assigned
deriving DecidableEq, Repr

/-- `SerialInventory` record from the types module. Dates are `Nat`
timestamps; the optional `attributes_json` record is a key/value list. -/
structure SerialInventory where
  id : String
  supplier_id : String
  buyer_id : String
  part_number_id : String
  serial_number : String
  status : Status
  asn_id : Option String := none
  attributes_json : Option (List (String × String)) := none
  parent_serial_id : Option String := none
  parent_serial_number : Option String := none
  expiry_date : Option Nat := none
  created_date : Nat
  updated_date : Nat
  created_by : String
  updated_by : String
deriving DecidableEq, Repr

/-- `ASNLot` record from the types module. -/
structure ASNLot where
  id : String
  item_id : String
  lot_number : String
  quantity : Nat
deriving DecidableEq, Repr

/-- `ASNItem` record from the types module. -/
structure ASNItem where
  id : String
  asn_id : String
  part_number_id : String
  buyer_part_number : String
  ship_quantity : Nat
  lots : List ASNLot
deriving DecidableEq, Repr

/-- ASN status union `'draft' | 'submitted' | 'received'`. -/
inductive ASNStatus where
  | draft
  | submitted
  | received
deriving DecidableEq, Repr

/-- `ASN` record from the types module. -/
structure ASN where
  id : String
  supplier_id : String
  buyer_id : String
  asn_number : String
  status : ASNStatus
  ship_date : Option Nat := none
  delivery_date : Option Nat := none
  created_date : Nat
  updated_date : Nat
  items : List ASNItem
deriving DecidableEq, Repr

/-- `Product` record from the types module. `price` is kept in cents to
stay in exact arithmetic; no embedded operation inspects it. -/
structure Product where
  id : String
  buyer_identifier : String
  supplier_identifier : String
  buyer_part_number : String
  description : String
  priceCents : Option Nat := none
  dimensions : Option String := none
  created_date : Nat
  updated_date : Nat
deriving DecidableEq, Repr

/-- `SerialStore` — the persisted aggregate snapshot of `serialStore.ts`. -/
structure SerialStore where
  serials : List SerialInventory
  asns : List ASN
  products : List Product
  lastUpdated : Nat
deriving DecidableEq, Repr

/-- Seed serials from `SerialStoreManager.getDefaultSerials`. Dates are
encoded as `yyyymmdd` numbers. -/
def getDefaultSerials : List SerialInventory :=
  [ { id := "1", supplier_id := "sup1", buyer_id := "buy1",
      part_number_id := "1", serial_number := "CPU001X7001",
      status := .blocked, asn_id := some "1",
      created_date := 20240115, updated_date := 20240120,
      created_by := "admin", updated_by := "admin" },
    { id := "2", supplier_id := "sup1", buyer_id := "buy1",
      part_number_id := "1", serial_number := "CPU001X7002",
      status := .assigned, asn_id := some "1",
      created_date := 20240116, updated_date := 20240121,
      created_by := "admin", updated_by := "admin" },
    { id := "3", supplier_id := "sup1", buyer_id := "buy1",
      part_number_id := "1", serial_number := "CPU001X7003",
      status := .unassigned,
      created_date := 20240117, updated_date := 20240117,
      created_by := "admin", updated_by := "admin" },
    { id := "4", supplier_id := "sup1", buyer_id := "buy1",
      part_number_id := "1", serial_number := "CPU001X7004",
      status := .unassigned,
      created_date := 20240118, updated_date := 20240118,
      created_by := "admin", updated_by := "admin" },
    { id := "5", supplier_id := "sup1", buyer_id := "buy1",
      part_number_id := "2", serial_number := "MEM002DDR5001",
      status := .unassigned,
      created_date := 20240119, updated_date := 20240119,
      created_by := "admin", updated_by := "admin" } ]

/-- Seed ASNs from `SerialStoreManager.getDefaultASNs`. -/
def getDefaultASNs : List ASN :=
  [ { id := "1", supplier_id := "sup1", buyer_id := "buy1",
      asn_number := "ASN-2024-001", status := .draft,
      ship_date := some 20240215,
      created_date := 20240115, updated_date := 20240120,
      items :=
        [ { id := "item1", asn_id := "1", part_number_id := "1",
            buyer_part_number := "CPU-001-X7", ship_quantity := 10,
            lots :=
              [ { id := "lot1", item_id := "item1", lot_number := "LOT001", quantity := 5 },
                { id := "lot2", item_id := "item1", lot_number := "LOT002", quantity := 5 } ] },
          { id := "item2", asn_id := "1", part_number_id := "2",
            buyer_part_number := "MEM-002-DDR5", ship_quantity := 20,
            lots :=
              [ { id := "lot3", item_id := "item2", lot_number := "LOT003", quantity := 15 },
                { id := "lot4", item_id := "item2", lot_number := "LOT004", quantity := 5 } ] },
          { id := "item3", asn_id := "1", part_number_id := "3",
            buyer_part_number := "SSD-003-NVMe", ship_quantity := 8,
            lots :=
              [ { id := "lot5", item_id := "item3", lot_number := "LOT005", quantity := 8 } ] } ] },
    { id := "2", supplier_id := "sup2", buyer_id := "buy2",
      asn_number := "ASN-2024-002", status := .submitted,
      ship_date := some 20240220,
      created_date := 20240118, updated_date := 20240125,
      items := [] } ]

/-- Seed products from `SerialStoreManager.getDefaultProducts`. -/
def getDefaultProducts : List Product :=
  [ { id := "1", buyer_identifier := "ACME_CORP",
      supplier_identifier := "TECH_SUPPLY_001",
      buyer_part_number := "CPU-001-X7",
      description := "High-performance processor unit with enhanced cooling",
      priceCents := some 29999, dimensions := some "40mm x 40mm x 5mm",
      created_date := 20240115, updated_date := 20240120 },
    { id := "2", buyer_identifier := "ACME_CORP",
      supplier_identifier := "TECH_SUPPLY_001",
      buyer_part_number := "MEM-002-DDR5",
      description := "DDR5 Memory Module 32GB",
      priceCents := some 18999, dimensions := some "133mm x 30mm x 5mm",
      created_date := 20240110, updated_date := 20240118 },
    { id := "3", buyer_identifier := "BETA_SYSTEMS",
      supplier_identifier := "COMPONENT_PLUS",
      buyer_part_number := "SSD-003-NVMe",
      description := "NVMe SSD 1TB High Speed Storage",
      priceCents := some 14999, dimensions := some "80mm x 22mm x 2.38mm",
      created_date := 20240112, updated_date := 20240122 } ]

/-- The default snapshot built in the `NotFound` branch of
`SerialStoreManager.getStore`, with `lastUpdated = Date.now()`. -/
def defaultStore (now : Nat) : SerialStore :=
  { serials := getDefaultSerials,
    asns := getDefaultASNs,
    products := getDefaultProducts,
    lastUpdated := now }

/-- Manager state: the IndexedDB record under key `"data"` (`none` =
record absent), the subscriber set in insertion order, and the log of
delivered notification rounds (each round lists the subscribers that
were called). -/
structure MState where
  backing : Option SerialStore
  subs : List Nat
  log : List (List Nat)
deriving DecidableEq, Repr

/-- A freshly constructed manager with an empty database: no record, no
subscribers, no notifications delivered yet. -/
def initState : MState :=
  { backing := none, subs := [], log := [] }

/-- `SerialStoreManager.subscribe`: `Set.add` keeps insertion order and
ignores a callback that is already registered. -/
def subscribeRun (st : MState) (c : Nat) : MState :=
  if st.subs.contains c then st else { st with subs := st.subs ++ [c] }

/-- `GlobalStoreManager.subscribe` (part_013): registers the callback and
immediately replays the current state to it, as one single-recipient
round. -/
def subscribeReplayRun (st : MState) (c : Nat) : MState :=
  let st1 := subscribeRun st c
  { st1 with log := st1.log ++ [[c]] }

/-- `SerialStoreManager.setStore`: persists `{ ...data, lastUpdated:
Date.now() }` under the fixed key and then notifies every subscriber
(one round appended to the log). -/
def setStoreRun (st : MState) (data : SerialStore) (now : Nat) : MState :=
  { st with backing := some { data with lastUpdated := now },
            log := st.log ++ [st.subs] }

/-- `SerialStoreManager.getStore`: returns the stored record when
present; on `NotFound` builds the default snapshot, persists it through
`setStore` and resolves with it. -/
def getStoreRun (st : MState) (now : Nat) : SerialStore × MState :=
  match st.backing with
  | some s => (s, st)
  | none =>
      let d := defaultStore now
      (d, setStoreRun st d now)

/-- The snapshot a read observes in state `st` at time `now`. -/
def snapshotOf (st : MState) (now : Nat) : SerialStore :=
  (getStoreRun st now).1

/-- Replaces the first element satisfying `p` by its image under `f`,
leaving everything else in place — the effect of `findIndex` +
assignment, or `find` + in-place mutation, on a JS array. -/
def updateFirst (p : α → Bool) (f : α → α) : List α → List α
  | [] => []
  | x :: xs => if p x then f x :: xs else x :: updateFirst p f xs

/-- `SerialStoreManager.addSerials`: read, push all new serials at the
end, write back. -/
def addSerialsRun (st : MState) (ss : List SerialInventory) (now : Nat) : MState :=
  let r := getStoreRun st now
  setStoreRun r.2 { r.1 with serials := r.1.serials ++ ss } now

/-- `SerialStoreManager.updateSerial`: full replace of the first serial
with a matching `id`; silently does nothing when no serial matches. -/
def updateSerialRun (st : MState) (u : SerialInventory) (now : Nat) : MState :=
  let r := getStoreRun st now
  if r.1.serials.any (fun s => s.id == u.id) then
    setStoreRun r.2
      { r.1 with serials := updateFirst (fun s => s.id == u.id) (fun _ => u) r.1.serials } now
  else r.2

/-- `SerialStoreManager.updateSerialStatus`: finds the first serial with
the given id and overwrites its `status`, `asn_id` (with the optional
argument as given, absent when omitted) and `updated_date`; silently
does nothing when no serial matches. -/
def updateSerialStatusRun (st : MState) (serialId : String) (status : Status)
    (asnId : Option String) (now : Nat) : MState :=
  let r := getStoreRun st now
  if r.1.serials.any (fun s => s.id == serialId) then
    setStoreRun r.2
      { r.1 with serials :=
          (updateFirst (fun s => s.id == serialId)
            (fun s => { s with status := status, asn_id := asnId, updated_date := now })
            r.1.serials) } now
  else r.2

/-- The core operations a view collaborator can issue against the
manager. -/
inductive Op where
  | getStore
  | addSerials (ss : List SerialInventory)
  | updateSerial (u : SerialInventory)
  | updateSerialStatus (serialId : String) (status : Status) (asnId : Option String)
deriving DecidableEq, Repr

/-- One operation performed at clock time `now`. -/
def step (st : MState) : Op → Nat → MState
  | .getStore, now => (getStoreRun st now).2
  | .addSerials ss, now => addSerialsRun st ss now
  | .updateSerial u, now => updateSerialRun st u now
  | .updateSerialStatus i s a, now => updateSerialStatusRun st i s a now

/-- A sequence of operations, each tagged with its clock time. -/
def run (st : MState) : List (Op × Nat) → MState
  | [] => st
  | p :: rest => run (step st p.1 p.2) rest

/-- Number of notifications subscriber `c` has received: the number of
delivered rounds whose recipient list contains `c` (the subscriber set
is duplicate-free, so each round calls `c` at most once). -/
def countNotifs (st : MState) (c : Nat) : Nat :=
  (st.log.filter (fun round => round.contains c)).length

/-- `SerialStoreManager.getSerialsByStatus`, as the pure projection it
computes over the snapshot a read returns. -/
def getSerialsByStatus (store : SerialStore) (status : Status) : List SerialInventory :=
  store.serials.filter (fun s => s.status == status)

/-- `SerialStoreManager.getSerialsByASN` over the snapshot: strict
equality of the optional `asn_id` with the given id (an absent `asn_id`
never matches). -/
def getSerialsByASN (store : SerialStore) (asnId : String) : List SerialInventory :=
  store.serials.filter (fun s => s.asn_id == some asnId)

/-- `SerialStoreManager.getSerialsByPartNumber` over the snapshot. -/
def getSerialsByPartNumber (store : SerialStore) (partNumberId : String) : List SerialInventory :=
  store.serials.filter (fun s => s.part_number_id == partNumberId)

/-- Result shape of `SerialStoreManager.getSerialCounts`. -/
structure SerialCounts where
  total : Nat
  unassigned : Nat
  blocked : Nat
  assigned : Nat
deriving DecidableEq, Repr

/-- `SerialStoreManager.getSerialCounts` over the snapshot. -/
def getSerialCounts (store : SerialStore) : SerialCounts :=
  { total := store.serials.length,
    unassigned := (store.serials.filter (fun s => s.status == Status.unassigned)).length,
    blocked := (store.serials.filter (fun s => s.status == Status.blocked)).length,
    assigned := (store.serials.filter (fun s => s.status == Status.assigned)).length }

/-- ASCII whitespace, for the JS `String.prototype.trim` model. -/
def isWhitespaceChar (c : Char) : Bool :=
  c == ' ' || c == '\t' || c == '\n' || c == '\r'

/-- JS `s.trim()`: strips leading and trailing whitespace. -/
def trimChars (s : String) : String :=
  String.mk (((s.data.dropWhile isWhitespaceChar).reverse.dropWhile isWhitespaceChar).reverse)

/-- JS `n.toString().padStart(3, '0')` for a natural number. -/
def pad3 (n : Nat) : String :=
  let s := toString n
  if s.length < 3 then String.mk (List.replicate (3 - s.length) '0') ++ s else s

/-- One serial record built by the loop body of `handleBulkGenerate` in
`AddSerialsForm.tsx` for sequence number `i` (the record id embeds the
clock reading and `i`). -/
def generatedSerial (productId pfx : String) (expiry : Option Nat)
    (attrs : List (String × String)) (now i : Nat) : SerialInventory :=
  { id := "serial_" ++ toString now ++ "_" ++ toString i,
    supplier_id := "sup1",
    buyer_id := "buy1",
    part_number_id := productId,
    serial_number := pfx ++ pad3 i,
    status := .unassigned,
    expiry_date := expiry,
    attributes_json := some attrs,
    created_date := now,
    updated_date := now,
    created_by := "user",
    updated_by := "user" }

/-- The list built by the `for (let i = start; i <= end; i++)` loop of
`handleBulkGenerate`: one record per integer of the inclusive range
`[start, endNum]`, in increasing order (empty when `start > endNum`). -/
def generateSerials (productId pfx : String) (start endNum : Nat) (expiry : Option Nat)
    (attrs : List (String × String)) (now : Nat) : List SerialInventory :=
  (List.range' start (endNum + 1 - start)).map (generatedSerial productId pfx expiry attrs now)

/-- Outcome of a bulk-generation request as `handleBulkGenerate` reports
it: an input-validation toast, the range-too-large toast, or success
with the generated records. -/
inductive BulkResult where
  | invalidInput
  | rangeTooLarge
  | generated (ss : List SerialInventory)
deriving DecidableEq, Repr

/-- `handleBulkGenerate` from `AddSerialsForm.tsx`, acting on the store:
rejects a blank prefix or `start > end` inputs, rejects
`end - start > 1000`, and otherwise generates the records and submits
them through `addSerials`. Rejections return before anything is built,
leaving the manager state untouched. -/
def handleBulkGenerate (st : MState) (productId pfx : String) (start endNum : Nat)
    (expiry : Option Nat) (attrs : List (String × String)) (now : Nat) :
    MState × BulkResult :=
  if trimChars pfx = "" ∨ start > endNum then (st, .invalidInput)
  else if endNum - start > 1000 then (st, .rangeTooLarge)
  else
    let ss := generateSerials productId pfx start endNum expiry attrs now
    (addSerialsRun st ss now, .generated ss)

/-- A registered observer callback for the fault-isolation analysis:
`throwsErr` records whether invoking it raises an exception. -/
structure Observer where
  id : Nat
  throwsErr : Bool
deriving DecidableEq, Repr

/-- JS `Set.forEach(callback => callback())` as both notification
variants run it (`notifySubscribers`): observers are invoked in
registration order and an exception thrown by one propagates out of
`forEach` at once. Returns the identities actually invoked and whether
an exception escaped the round. -/
def notifyAll : List Observer → List Nat × Bool
  | [] => ([], false)
  | o :: rest =>
      if o.throwsErr then ([o.id], true)
      else
        let r := notifyAll rest
        (o.id :: r.1, r.2)

/-- Minimal state of the `GlobalStoreManager` variant (part_013): the
in-memory snapshot, the persisted record, and the observers. -/
structure GMState where
  mem : SerialStore
  backing : Option SerialStore
  observers : List Observer
deriving DecidableEq, Repr

/-- The `GlobalStoreManager.setState` pipeline (part_013): apply the
update to the in-memory state, then `notifySubscribers()`, then
`saveState()`. An exception escaping the notification round propagates
out of `setState` before `saveState` runs, so the mutation is never
persisted. Returns the new manager state, the observers actually
notified, and whether an exception escaped. -/
def gsSetState (st : GMState) (newMem : SerialStore) : GMState × List Nat × Bool :=
  let st1 := { st with mem := newMem }
  let r := notifyAll st1.observers
  if r.2 then (st1, r.1, true)
  else ({ st1 with backing := some newMem }, r.1, false)

/-- The status/ASN consistency condition on a single (status, asn_id)
pair, relative to the ids of the ASNs present in the snapshot:
`unassigned` exactly when `asn_id` is absent, and a present `asn_id`
must name an existing ASN. -/
def statusAsnOk (asnIds : List String) (status : Status) (asnId : Option String) : Bool :=
  match status, asnId with
  | .unassigned, none => true
  | .unassigned, some _ => false
  | .blocked, none => false
  | .assigned, none => false
  | .blocked, some a => asnIds.contains a
  | .assigned, some a => asnIds.contains a

/-- The consistency condition on one serial record. -/
def serialOk (asnIds : List String) (u : SerialInventory) : Bool :=
  statusAsnOk asnIds u.status u.asn_id

/-- The spec's status invariant on a snapshot: every serial satisfies
`status = unassigned ⟺ asn_id absent`, and a present `asn_id`
references an ASN of the snapshot. -/
def statusInvB (store : SerialStore) : Bool :=
  store.serials.all (serialOk (store.asns.map (fun a => a.id)))

/-- An operation whose arguments themselves respect the status/ASN
consistency condition (relative to the ASN ids of the snapshot). -/
def opOk (asnIds : List String) : Op → Bool
  | .getStore => true
  | .addSerials ss => ss.all (serialOk asnIds)
  | .updateSerial u => serialOk asnIds u
  | .updateSerialStatus _ status asnId => statusAsnOk asnIds status asnId

/-- All operations of a timed sequence respect the consistency
condition. -/
def opsOk (asnIds : List String) (ops : List (Op × Nat)) : Bool :=
  ops.all (fun p => opOk asnIds p.1)

/-- An operation that actually performs a snapshot update (and hence a
persist and a notification round) on the given snapshot: `addSerials`
always does; the two update operations do exactly when the targeted id
exists; a plain read never does. -/
def isEffectiveMutation (store : SerialStore) : Op → Bool
  | .getStore => false
  | .addSerials _ => true
  | .updateSerial u => store.serials.any (fun s => s.id == u.id)
  | .updateSerialStatus i _ _ => store.serials.any (fun s => s.id == i)

/-- Every operation of the timed sequence is an effective mutation on
the snapshot current when it runs. -/
def allEffective (st : MState) : List (Op × Nat) → Bool
  | [] => true
  | p :: rest =>
      isEffectiveMutation (snapshotOf st p.2) p.1 && allEffective (step st p.1 p.2) rest

/-- The ASN ids available in the seed data. -/
def seedAsnIds : List String :=
  getDefaultASNs.map (fun a => a.id)

/-- Collection constancy: a persisted record always carries the seed ASN
and product collections (no core operation ever touches either). -/
def CollInv (st : MState) : Prop :=
  ∀ s, st.backing = some s → s.asns = getDefaultASNs ∧ s.products = getDefaultProducts

/-- The status invariant on the persisted record, when one exists. -/
def StatusInv (st : MState) : Prop :=
  ∀ s, st.backing = some s → statusInvB s = true

end SerialSparkle

namespace SerialSparkle

theorem statusInvB_defaultStore (t : Nat) : statusInvB (defaultStore t) = true := rfl

theorem defaultStore_restamp (t : Nat) :
    ({ defaultStore t with lastUpdated := t } : SerialStore) = defaultStore t := rfl

theorem snapshotOf_of_some {st : MState} {s : SerialStore} (t : Nat)
    (h : st.backing = some s) : snapshotOf st t = s := by
  simp [snapshotOf, getStoreRun, h]

theorem getStoreRun_of_some {st : MState} {s : SerialStore} (t : Nat)
    (h : st.backing = some s) : getStoreRun st t = (s, st) := by
  simp [getStoreRun, h]

theorem getStoreRun_snd_backing (st : MState) (t : Nat) :
    (getStoreRun st t).2.backing = some (snapshotOf st t) := by
  cases h : st.backing with
  | none => simp [getStoreRun, snapshotOf, setStoreRun, h]; rfl
  | some s => simp [getStoreRun, snapshotOf, h]

theorem updateFirst_append_of_first (p : α → Bool) (f : α → α) (pre : List α) (u : α)
    (post : List α) (hpre : pre.all (fun x => !(p x)) = true) (hu : p u = true) :
    updateFirst p f (pre ++ u :: post) = pre ++ f u :: post := by
  induction pre with
  | nil => simp [updateFirst, hu]
  | cons x xs ih =>
      simp only [List.all_cons, Bool.and_eq_true, Bool.not_eq_true'] at hpre
      simp [updateFirst, hpre.1, ih hpre.2]

theorem all_updateFirst (p : α → Bool) (f : α → α) (q : α → Bool) (l : List α)
    (hl : l.all q = true) (hf : ∀ x, q (f x) = true) :
    (updateFirst p f l).all q = true := by
  induction l with
  | nil => simp [updateFirst]
  | cons x xs ih =>
      simp only [List.all_cons, Bool.and_eq_true] at hl
      cases hp : p x with
      | true => simp [updateFirst, hp, List.all_cons, hf x, hl.2]
      | false => simp [updateFirst, hp, List.all_cons, hl.1, ih hl.2]

theorem length_eq_sum_filter_status (l : List SerialInventory) :
    l.length = (l.filter (fun s => s.status == Status.unassigned)).length
      + (l.filter (fun s => s.status == Status.blocked)).length
      + (l.filter (fun s => s.status == Status.assigned)).length := by
  induction l with
  | nil => rfl
  | cons x xs ih =>
      cases hx : x.status <;> simp [List.filter_cons, hx, ih] <;> omega

/-- C6: for every snapshot, the `total` field of `getSerialCounts`
equals the sum of the lengths of the three `getSerialsByStatus`
projections; all four are pure functions of the snapshot (they are
plain Lean functions of the `SerialStore` value, so they mutate
nothing and are deterministic). -/
theorem serialCounts_consistent (store : SerialStore) :
    (getSerialCounts store).total =
      (getSerialsByStatus store Status.unassigned).length
      + (getSerialsByStatus store Status.blocked).length
      + (getSerialsByStatus store Status.assigned).length :=
  length_eq_sum_filter_status store.serials

theorem collInv_initState : CollInv initState := fun _ hs => nomatch hs

theorem statusInv_initState : StatusInv initState := fun _ hs => nomatch hs

theorem snapshot_coll (st : MState) (t : Nat) (h : CollInv st) :
    (snapshotOf st t).asns = getDefaultASNs ∧ (snapshotOf st t).products = getDefaultProducts := by
  cases hb : st.backing with
  | none =>
      have hd : snapshotOf st t = defaultStore t := by simp [snapshotOf, getStoreRun, hb]
      rw [hd]; exact ⟨rfl, rfl⟩
  | some s => rw [snapshotOf_of_some t hb]; exact h s hb

theorem snapshot_statusInv (st : MState) (t : Nat) (h : StatusInv st) :
    statusInvB (snapshotOf st t) = true := by
  cases hb : st.backing with
  | none =>
      have hd : snapshotOf st t = defaultStore t := by simp [snapshotOf, getStoreRun, hb]
      rw [hd]; rfl
  | some s => rw [snapshotOf_of_some t hb]; exact h s hb

theorem collInv_getStoreRun (st : MState) (t : Nat) (h : CollInv st) :
    CollInv (getStoreRun st t).2 := by
  intro s hs
  rw [getStoreRun_snd_backing] at hs
  have h2 := Option.some.inj hs
  subst h2
  exact snapshot_coll st t h

theorem statusInv_getStoreRun (st : MState) (t : Nat) (h : StatusInv st) :
    StatusInv (getStoreRun st t).2 := by
  intro s hs
  rw [getStoreRun_snd_backing] at hs
  have h2 := Option.some.inj hs
  subst h2
  exact snapshot_statusInv st t h

theorem collInv_setStoreRun (st : MState) (d : SerialStore) (t : Nat)
    (ha : d.asns = getDefaultASNs) (hp : d.products = getDefaultProducts) :
    CollInv (setStoreRun st d t) := by
  intro s hs
  have h2 : ({ d with lastUpdated := t } : SerialStore) = s := Option.some.inj hs
  subst h2
  exact ⟨ha, hp⟩

theorem statusInv_setStoreRun (st : MState) (d : SerialStore) (t : Nat)
    (hd : statusInvB d = true) : StatusInv (setStoreRun st d t) := by
  intro s hs
  have h2 : ({ d with lastUpdated := t } : SerialStore) = s := Option.some.inj hs
  subst h2
  exact hd

theorem collInv_step (st : MState) (op : Op) (t : Nat) (h : CollInv st) :
    CollInv (step st op t) := by
  have hc := snapshot_coll st t h
  cases op with
  | getStore => exact collInv_getStoreRun st t h
  | addSerials ss => exact collInv_setStoreRun _ _ _ hc.1 hc.2
  | updateSerial u =>
      cases hany : (getStoreRun st t).1.serials.any (fun x => x.id == u.id) with
      | true =>
          have hstep : step st (.updateSerial u) t =
              setStoreRun (getStoreRun st t).2
                { (getStoreRun st t).1 with
                    serials := updateFirst (fun x => x.id == u.id) (fun _ => u)
                      (getStoreRun st t).1.serials } t := by
            simp [step, updateSerialRun, hany]
          rw [hstep]
          exact collInv_setStoreRun _ _ _ hc.1 hc.2
      | false =>
          have hstep : step st (.updateSerial u) t = (getStoreRun st t).2 := by
            simp [step, updateSerialRun, hany]
          rw [hstep]
          exact collInv_getStoreRun st t h
  | updateSerialStatus i sv a =>
      cases hany : (getStoreRun st t).1.serials.any (fun x => x.id == i) with
      | true =>
          have hstep : step st (.updateSerialStatus i sv a) t =
              setStoreRun (getStoreRun st t).2
                { (getStoreRun st t).1 with
                    serials := updateFirst (fun x => x.id == i)
                      (fun x => { x with status := sv, asn_id := a, updated_date := t })
                      (getStoreRun st t).1.serials } t := by
            simp [step, updateSerialStatusRun, hany]
          rw [hstep]
          exact collInv_setStoreRun _ _ _ hc.1 hc.2
      | false =>
          have hstep : step st (.updateSerialStatus i sv a) t = (getStoreRun st t).2 := by
            simp [step, updateSerialStatusRun, hany]
          rw [hstep]
          exact collInv_getStoreRun st t h

theorem collInv_run (ops : List (Op × Nat)) : ∀ st : MState, CollInv st → CollInv (run st ops) := by
  induction ops with
  | nil => exact fun st h => h
  | cons p rest ih => exact fun st h => ih _ (collInv_step st p.1 p.2 h)

theorem statusInv_step (st : MState) (op : Op) (t : Nat) (hop : opOk seedAsnIds op = true)
    (hcoll : CollInv st) (h : StatusInv st) : StatusInv (step st op t) := by
  have hsnap : statusInvB (snapshotOf st t) = true := snapshot_statusInv st t h
  have hasns : (snapshotOf st t).asns = getDefaultASNs := (snapshot_coll st t hcoll).1
  cases op with
  | getStore => exact statusInv_getStoreRun st t h
  | addSerials ss =>
      apply statusInv_setStoreRun
      show ((getStoreRun st t).1.serials ++ ss).all
        (serialOk (((getStoreRun st t).1.asns).map (fun a => a.id))) = true
      rw [List.all_append, Bool.and_eq_true]
      refine ⟨hsnap, ?_⟩
      show ss.all (serialOk ((snapshotOf st t).asns.map (fun a => a.id))) = true
      rw [hasns]
      exact hop
  | updateSerial u =>
      cases hany : (getStoreRun st t).1.serials.any (fun x => x.id == u.id) with
      | true =>
          have hstep : step st (.updateSerial u) t =
              setStoreRun (getStoreRun st t).2
                { (getStoreRun st t).1 with
                    serials := updateFirst (fun x => x.id == u.id) (fun _ => u)
                      (getStoreRun st t).1.serials } t := by
            simp [step, updateSerialRun, hany]
          rw [hstep]
          apply statusInv_setStoreRun
          show (updateFirst (fun x => x.id == u.id) (fun _ => u)
              (getStoreRun st t).1.serials).all
            (serialOk (((getStoreRun st t).1.asns).map (fun a => a.id))) = true
          apply all_updateFirst _ _ _ _ hsnap
          intro x
          show serialOk ((snapshotOf st t).asns.map (fun a => a.id)) u = true
          rw [hasns]
          exact hop
      | false =>
          have hstep : step st (.updateSerial u) t = (getStoreRun st t).2 := by
            simp [step, updateSerialRun, hany]
          rw [hstep]
          exact statusInv_getStoreRun st t h
  | updateSerialStatus i sv a =>
      cases hany : (getStoreRun st t).1.serials.any (fun x => x.id == i) with
      | true =>
          have hstep : step st (.updateSerialStatus i sv a) t =
              setStoreRun (getStoreRun st t).2
                { (getStoreRun st t).1 with
                    serials := updateFirst (fun x => x.id == i)
                      (fun x => { x with status := sv, asn_id := a, updated_date := t })
                      (getStoreRun st t).1.serials } t := by
            simp [step, updateSerialStatusRun, hany]
          rw [hstep]
          apply statusInv_setStoreRun
          show (updateFirst (fun x => x.id == i)
              (fun x => { x with status := sv, asn_id := a, updated_date := t })
              (getStoreRun st t).1.serials).all
            (serialOk (((getStoreRun st t).1.asns).map (fun a => a.id))) = true
          apply all_updateFirst _ _ _ _ hsnap
          intro x
          show statusAsnOk ((snapshotOf st t).asns.map (fun a => a.id)) sv a = true
          rw [hasns]
          exact hop
      | false =>
          have hstep : step st (.updateSerialStatus i sv a) t = (getStoreRun st t).2 := by
            simp [step, updateSerialStatusRun, hany]
          rw [hstep]
          exact statusInv_getStoreRun st t h

theorem inv_run (ops : List (Op × Nat)) : ∀ st : MState, opsOk seedAsnIds ops = true →
    CollInv st → StatusInv st → CollInv (run st ops) ∧ StatusInv (run st ops) := by
  induction ops with
  | nil => exact fun st _ hc hs => ⟨hc, hs⟩
  | cons p rest ih =>
      intro st hops hc hs
      simp only [opsOk, List.all_cons, Bool.and_eq_true] at hops
      exact ih _ hops.2 (collInv_step st p.1 p.2 hc) (statusInv_step st p.1 p.2 hops.1 hc hs)

/-- C1 (amended): the seeded snapshot satisfies the status invariant
(`status = unassigned ⟺ asn_id absent`, present `asn_id` references an
existing ASN), and the invariant is preserved by any sequence of core
operations whose arguments themselves respect it (`addSerials` /
`updateSerial` inputs satisfy it, and `updateSerialStatus` supplies an
existing-ASN `asnId` exactly when the new status is not `unassigned`).
The unamended claim — preservation under arbitrary argument values — is
refuted by `statusInv_violation`, since the operations perform no
validation of their own. -/
theorem statusInv_preserved (ops : List (Op × Nat)) (hops : opsOk seedAsnIds ops = true)
    (t : Nat) : statusInvB (snapshotOf (run initState ops) t) = true :=
  snapshot_statusInv _ t (inv_run ops initState hops collInv_initState statusInv_initState).2

/-- C1 (witness): a concrete run — blocking seeded serial `3` against
existing ASN `1` — through `statusInv_preserved`. -/
theorem statusInv_preserved_witness :
    opsOk seedAsnIds [(Op.updateSerialStatus "3" Status.blocked (some "1"), 7)] = true ∧
    statusInvB (snapshotOf (run initState
      [(Op.updateSerialStatus "3" Status.blocked (some "1"), 7)]) 8) = true :=
  ⟨by decide, statusInv_preserved _ (by decide) 8⟩

/-- C1 (counterexample): from the seeded state, the single core call
`updateSerialStatus("3", 'blocked')` with the ASN argument omitted
yields a snapshot violating the invariant — serial `3` is `blocked`
with `asn_id` absent — so the invariant does not hold after every
sequence of core operations. -/
theorem statusInv_violation :
    statusInvB (snapshotOf
      (run initState [(Op.updateSerialStatus "3" Status.blocked none, 1)]) 2) = false := by
  decide

theorem step_backing_isSome (st : MState) (op : Op) (t : Nat) :
    (step st op t).backing.isSome = true := by
  cases op with
  | getStore =>
      show ((getStoreRun st t).2).backing.isSome = true
      rw [getStoreRun_snd_backing]
      rfl
  | addSerials ss => rfl
  | updateSerial u =>
      cases hany : (getStoreRun st t).1.serials.any (fun x => x.id == u.id) with
      | true =>
          have hstep : step st (.updateSerial u) t =
              setStoreRun (getStoreRun st t).2
                { (getStoreRun st t).1 with
                    serials := updateFirst (fun x => x.id == u.id) (fun _ => u)
                      (getStoreRun st t).1.serials } t := by
            simp [step, updateSerialRun, hany]
          rw [hstep]
          rfl
      | false =>
          have hstep : step st (.updateSerial u) t = (getStoreRun st t).2 := by
            simp [step, updateSerialRun, hany]
          rw [hstep, getStoreRun_snd_backing]
          rfl
  | updateSerialStatus i sv a =>
      cases hany : (getStoreRun st t).1.serials.any (fun x => x.id == i) with
      | true =>
          have hstep : step st (.updateSerialStatus i sv a) t =
              setStoreRun (getStoreRun st t).2
                { (getStoreRun st t).1 with
                    serials := updateFirst (fun x => x.id == i)
                      (fun x => { x with status := sv, asn_id := a, updated_date := t })
                      (getStoreRun st t).1.serials } t := by
            simp [step, updateSerialStatusRun, hany]
          rw [hstep]
          rfl
      | false =>
          have hstep : step st (.updateSerialStatus i sv a) t = (getStoreRun st t).2 := by
            simp [step, updateSerialStatusRun, hany]
          rw [hstep, getStoreRun_snd_backing]
          rfl

theorem run_backing_isSome_of (ops : List (Op × Nat)) : ∀ st : MState,
    st.backing.isSome = true → (run st ops).backing.isSome = true := by
  induction ops with
  | nil => exact fun _ h => h
  | cons p rest ih => exact fun st _ => ih _ (step_backing_isSome st p.1 p.2)

/-- C2: (i) a read against an absent backing record (the first-ever
read) resolves with the deterministic seed snapshot and persists it at
once (the returned state holds the seed as its backing record, and the
bootstrap persist has delivered its notification round); (ii) after any
sequence of core operations from a fresh store, every read returns a
snapshot with a non-empty `products` collection; (iii) after any
non-empty sequence of operations the backing record is present, so
`NotFound` can only be observed by the very first read of the store's
lifetime. -/
theorem seed_bootstrap :
    (∀ (st : MState) (t : Nat), st.backing = none →
        getStoreRun st t = (defaultStore t,
          { st with backing := some (defaultStore t), log := st.log ++ [st.subs] }))
    ∧ (∀ (ops : List (Op × Nat)) (t : Nat),
        (snapshotOf (run initState ops) t).products ≠ [])
    ∧ (∀ ops : List (Op × Nat), ops ≠ [] →
        (run initState ops).backing.isSome = true) := by
  refine ⟨?_, ?_, ?_⟩
  · intro st t h
    obtain ⟨b, subs, log⟩ := st
    cases h
    rfl
  · intro ops t
    have hc := collInv_run ops initState collInv_initState
    rw [(snapshot_coll _ t hc).2]
    decide
  · intro ops h
    cases ops with
    | nil => exact absurd rfl h
    | cons p rest =>
        exact run_backing_isSome_of rest _ (step_backing_isSome initState p.1 p.2)

/-- C2 (witness): the bootstrap read, the non-empty products collection
and the established backing record, each at a concrete input. -/
theorem seed_bootstrap_witness :
    getStoreRun initState 0 = (defaultStore 0,
      { backing := some (defaultStore 0), subs := [], log := [[]] }) ∧
    (snapshotOf (run initState [(Op.getStore, 0)]) 1).products ≠ [] ∧
    (run initState [(Op.getStore, 0)]).backing.isSome = true :=
  ⟨seed_bootstrap.1 initState 0 rfl,
   seed_bootstrap.2.1 [(Op.getStore, 0)] 1,
   seed_bootstrap.2.2 [(Op.getStore, 0)] (by decide)⟩

/-- C4: writing a snapshot `s` at time `t` and then reading yields a
snapshot that agrees with `s` on `serials`, `asns` and `products`,
while `lastUpdated` is refreshed to a timestamp `≥ t`, the time of the
write (`setStore` stamps `Date.now()` onto the stored record). -/
theorem setStore_roundTrip (st : MState) (s : SerialStore) (t tr : Nat) :
    ∃ s', snapshotOf (setStoreRun st s t) tr = s' ∧ s'.serials = s.serials ∧
      s'.asns = s.asns ∧ s'.products = s.products ∧ t ≤ s'.lastUpdated :=
  ⟨{ s with lastUpdated := t }, rfl, rfl, rfl, rfl, Nat.le_refl t⟩


theorem step_effective_shape (st : MState) (op : Op) (t : Nat) {s : SerialStore}
    (hb : st.backing = some s)
    (he : isEffectiveMutation (snapshotOf st t) op = true) :
    (step st op t).log = st.log ++ [st.subs] ∧ (step st op t).subs = st.subs ∧
      (step st op t).backing.isSome = true := by
  have hr := getStoreRun_of_some t hb
  have hsnap := snapshotOf_of_some t hb
  rw [hsnap] at he
  cases op with
  | getStore => simp [isEffectiveMutation] at he
  | addSerials ss =>
      refine ⟨?_, ?_, ?_⟩ <;> simp [step, addSerialsRun, hr, setStoreRun]
  | updateSerial u =>
      simp only [isEffectiveMutation] at he
      refine ⟨?_, ?_, ?_⟩ <;> simp [step, updateSerialRun, hr, he, setStoreRun]
  | updateSerialStatus i sv a =>
      simp only [isEffectiveMutation] at he
      refine ⟨?_, ?_, ?_⟩ <;> simp [step, updateSerialStatusRun, hr, he, setStoreRun]

theorem run_countNotifs (ops : List (Op × Nat)) : ∀ (st : MState) (c : Nat),
    st.backing.isSome = true → allEffective st ops = true → st.subs.contains c = true →
    countNotifs (run st ops) c = countNotifs st c + ops.length := by
  induction ops with
  | nil => intro st c _ _ _; simp [run]
  | cons p rest ih =>
      intro st c hb he hc
      simp only [allEffective, Bool.and_eq_true] at he
      obtain ⟨s, hs⟩ := Option.isSome_iff_exists.mp hb
      obtain ⟨hlog, hsubs, hbs⟩ := step_effective_shape st p.1 p.2 hs he.1
      have hcm : c ∈ st.subs := by simpa using hc
      have hcount : countNotifs (step st p.1 p.2) c = countNotifs st c + 1 := by
        simp [countNotifs, hlog, List.filter_append, List.filter_cons, hcm]
      have hrun : run st (p :: rest) = run (step st p.1 p.2) rest := rfl
      rw [hrun, ih _ c hbs he.2 (by rw [hsubs]; exact hc), hcount]
      simp [List.length_cons]
      omega

/-- C3 (amended): starting from a store whose backing record exists
(post-bootstrap), for any sequence of effective mutations (operations
that perform a snapshot update: `addSerials` always, the update
operations when the target id exists), every registered subscriber
receives exactly one notification per mutation — `M` mutations add
exactly `M` notifications — independent of where the subscriber sits in
the registration order; and in the replay-on-subscribe variant a fresh
subscriber receives `M + 1`. (The unamended claim fails on a fresh
store, where the first mutation also triggers the bootstrap persist's
extra round; see the counterexample.) -/
theorem notification_count :
    (∀ (st : MState) (ops : List (Op × Nat)) (c : Nat),
        st.backing.isSome = true → allEffective st ops = true →
        st.subs.contains c = true →
        countNotifs (run st ops) c = countNotifs st c + ops.length)
    ∧ (∀ (st : MState) (ops : List (Op × Nat)) (c : Nat),
        st.backing.isSome = true → st.subs.contains c = false →
        countNotifs st c = 0 →
        allEffective (subscribeReplayRun st c) ops = true →
        countNotifs (run (subscribeReplayRun st c) ops) c = ops.length + 1) := by
  constructor
  · exact fun st ops c hb he hc => run_countNotifs ops st c hb he hc
  · intro st ops c hb hnc h0 he
    have hncm : c ∉ st.subs := by simpa using hnc
    have hback : (subscribeReplayRun st c).backing = st.backing := by
      show (subscribeRun st c).backing = st.backing
      simp only [subscribeRun]
      split <;> rfl
    have hs1 : (subscribeRun st c).subs = st.subs ++ [c] := by
      simp [subscribeRun, hncm]
    have hsubs : (subscribeReplayRun st c).subs.contains c = true := by
      show (subscribeRun st c).subs.contains c = true
      rw [hs1]
      simp
    have hcnt : countNotifs (subscribeReplayRun st c) c = 1 := by
      have hl1 : (subscribeRun st c).log = st.log := by
        simp only [subscribeRun]
        split <;> rfl
      have hlog2 : (subscribeReplayRun st c).log = st.log ++ [[c]] := by
        simp [subscribeReplayRun, hl1]
      simp only [countNotifs, hlog2, List.filter_append, List.length_append]
      have hone : (List.filter (fun round => round.contains c) [[c]]).length = 1 := by simp
      rw [hone]
      simp only [countNotifs] at h0
      omega
    rw [run_countNotifs ops _ c (by rw [hback]; exact hb) he hsubs, hcnt]
    omega

/-- C3 (witness): two effective mutations against a bootstrapped store
with one subscriber yield exactly two notifications, and a freshly
replay-subscribed observer receives three (two mutations plus the
immediate replay). -/
theorem notification_count_witness :
    countNotifs (run { backing := some (defaultStore 0), subs := [0], log := [] }
      [(Op.addSerials [], 1), (Op.updateSerialStatus "3" Status.blocked none, 2)]) 0 = 2 ∧
    countNotifs (run (subscribeReplayRun
        { backing := some (defaultStore 0), subs := [], log := [] } 7)
      [(Op.addSerials [], 1), (Op.updateSerialStatus "3" Status.blocked none, 2)]) 7 = 3 :=
  ⟨notification_count.1 { backing := some (defaultStore 0), subs := [0], log := [] }
      [(Op.addSerials [], 1), (Op.updateSerialStatus "3" Status.blocked none, 2)] 0
      rfl (by decide) (by decide),
   notification_count.2 { backing := some (defaultStore 0), subs := [], log := [] }
      [(Op.addSerials [], 1), (Op.updateSerialStatus "3" Status.blocked none, 2)] 7
      rfl (by decide) (by decide) (by decide)⟩

/-- C3 (counterexample): against a fresh (never-read) store with one
subscriber, a single completed mutation call delivers two notifications
to that subscriber — one from the seed-bootstrap persist inside the
implicit read and one from the mutation's own persist — not exactly
one, refuting the claim's count for `M = 1`. -/
theorem notification_double_on_bootstrap :
    countNotifs (run (subscribeRun initState 0)
        [(Op.addSerials [generatedSerial "1" "X" none [] 1 1], 1)]) 0 = 2 ∧
    countNotifs (run (subscribeRun initState 0)
        [(Op.addSerials [generatedSerial "1" "X" none [] 1 1], 1)]) 0 ≠ 1 := by
  constructor <;> decide


theorem updateSerialStatusRun_notFound (st : MState) (s : SerialStore) (serialId : String)
    (status : Status) (asnId : Option String) (t : Nat) (hb : st.backing = some s)
    (hnone : s.serials.any (fun x => x.id == serialId) = false) :
    step st (Op.updateSerialStatus serialId status asnId) t = st := by
  have hr := getStoreRun_of_some t hb
  show updateSerialStatusRun st serialId status asnId t = st
  simp [updateSerialStatusRun, hr, hnone]

theorem updateSerialStatusRun_found (st : MState) (s : SerialStore) (serialId : String)
    (status : Status) (asnId : Option String) (t : Nat) (pre : List SerialInventory)
    (u : SerialInventory) (post : List SerialInventory) (hb : st.backing = some s)
    (hs : s.serials = pre ++ u :: post)
    (hpre : pre.all (fun x => !(x.id == serialId)) = true)
    (hu : (u.id == serialId) = true) :
    step st (Op.updateSerialStatus serialId status asnId) t =
      { st with
          backing := some { s with
            serials := pre ++ { u with status := status, asn_id := asnId, updated_date := t } :: post,
            lastUpdated := t },
          log := st.log ++ [st.subs] } := by
  have hr := getStoreRun_of_some t hb
  have hany : s.serials.any (fun x => x.id == serialId) = true := by
    rw [hs]
    simp [List.any_append, List.any_cons, hu]
  show updateSerialStatusRun st serialId status asnId t = _
  simp only [updateSerialStatusRun, hr, hany, if_true, setStoreRun]
  rw [hs, updateFirst_append_of_first _ _ pre u post hpre hu]

/-- C5: frame conditions of `updateSerialStatus` on a store whose
backing snapshot is `s`. If no serial carries the target id the call is
a complete no-op — the state (backing record, `lastUpdated` included)
is returned unchanged and no notification round is delivered. If the
first matching serial is found, exactly its `status`, `asn_id` and
`updated_date` fields are overwritten; its remaining fields, all other
serials, and the `asns` and `products` collections are untouched (only
`serials` and `lastUpdated` change in the snapshot), and one
notification round is delivered. `asnId` is an arbitrary optional
string with no hypothesis tying it to `s.asns`: no existing-ASN
validation is performed. -/
theorem updateSerialStatus_frame (st : MState) (s : SerialStore) (serialId : String)
    (status : Status) (asnId : Option String) (t : Nat) (hb : st.backing = some s) :
    (s.serials.any (fun x => x.id == serialId) = false →
        step st (Op.updateSerialStatus serialId status asnId) t = st)
    ∧ (∀ pre u post, s.serials = pre ++ u :: post →
        pre.all (fun x => !(x.id == serialId)) = true → (u.id == serialId) = true →
        step st (Op.updateSerialStatus serialId status asnId) t =
          { st with
              backing := some { s with
                serials := pre ++
                  { u with status := status, asn_id := asnId, updated_date := t } :: post,
                lastUpdated := t },
              log := st.log ++ [st.subs] }) :=
  ⟨fun hnone => updateSerialStatusRun_notFound st s serialId status asnId t hb hnone,
   fun pre u post hs hpre hu =>
     updateSerialStatusRun_found st s serialId status asnId t pre u post hb hs hpre hu⟩

/-- C5 (witness): on the seeded snapshot, updating unknown id `99`
leaves the state untouched, while updating id `3` to `blocked` with a
dangling ASN reference rewrites exactly that serial. -/
theorem updateSerialStatus_frame_witness :
    step { backing := some (defaultStore 0), subs := [], log := [] }
        (Op.updateSerialStatus "99" Status.blocked (some "1")) 5 =
      { backing := some (defaultStore 0), subs := [], log := [] } ∧
    (step { backing := some (defaultStore 0), subs := [], log := [] }
        (Op.updateSerialStatus "3" Status.blocked (some "no-such-asn")) 5).backing =
      some { defaultStore 0 with
               serials := getDefaultSerials.take 2 ++
                 ({ id := "3", supplier_id := "sup1", buyer_id := "buy1",
                    part_number_id := "1", serial_number := "CPU001X7003",
                    status := Status.blocked, asn_id := some "no-such-asn",
                    created_date := 20240117, updated_date := 5,
                    created_by := "admin", updated_by := "admin" } : SerialInventory) ::
                 getDefaultSerials.drop 3,
               lastUpdated := 5 } := by
  constructor
  · exact (updateSerialStatus_frame
        { backing := some (defaultStore 0), subs := [], log := [] }
        (defaultStore 0) "99" Status.blocked (some "1") 5 rfl).1 (by decide)
  · rw [(updateSerialStatus_frame
        { backing := some (defaultStore 0), subs := [], log := [] }
        (defaultStore 0) "3" Status.blocked (some "no-such-asn") 5 rfl).2
        (getDefaultSerials.take 2)
        { id := "3", supplier_id := "sup1", buyer_id := "buy1", part_number_id := "1",
          serial_number := "CPU001X7003", status := Status.unassigned,
          created_date := 20240117, updated_date := 20240117,
          created_by := "admin", updated_by := "admin" }
        (getDefaultSerials.drop 3) (by decide) (by decide) (by decide)]

/-- C10: when `updateSerialStatus` is called with the `asnId` argument
omitted (absent) on an existing serial, the serial's `asn_id` field is
unconditionally overwritten with the absent value — whatever status is
assigned and whatever `asn_id` the record held before (`u.asn_id` is
arbitrary here), the updated record carries `asn_id = none`. -/
theorem updateSerialStatus_clears_asn (st : MState) (s : SerialStore) (serialId : String)
    (status : Status) (t : Nat) (pre : List SerialInventory) (u : SerialInventory)
    (post : List SerialInventory) (hb : st.backing = some s) (hs : s.serials = pre ++ u :: post)
    (hpre : pre.all (fun x => !(x.id == serialId)) = true)
    (hu : (u.id == serialId) = true) :
    ∃ s', (step st (Op.updateSerialStatus serialId status none) t).backing = some s' ∧
      s'.serials = pre ++ { u with status := status, asn_id := none, updated_date := t } :: post := by
  refine ⟨{ s with
      serials := pre ++ { u with status := status, asn_id := none, updated_date := t } :: post,
      lastUpdated := t }, ?_, rfl⟩
  rw [updateSerialStatusRun_found st s serialId status none t pre u post hb hs hpre hu]

/-- C10 (witness): seeded serial `2` is `assigned` to ASN `1`; a
status-only update to `blocked` silently drops that association. -/
theorem updateSerialStatus_clears_asn_witness :
    ∃ s', (step { backing := some (defaultStore 0), subs := [], log := [] }
        (Op.updateSerialStatus "2" Status.blocked none) 9).backing = some s' ∧
      s'.serials = getDefaultSerials.take 1 ++
        ({ id := "2", supplier_id := "sup1", buyer_id := "buy1", part_number_id := "1",
           serial_number := "CPU001X7002", status := Status.blocked, asn_id := none,
           created_date := 20240116, updated_date := 9,
           created_by := "admin", updated_by := "admin" } : SerialInventory) ::
        getDefaultSerials.drop 2 :=
  updateSerialStatus_clears_asn
    { backing := some (defaultStore 0), subs := [], log := [] }
    (defaultStore 0) "2" Status.blocked 9
    (getDefaultSerials.take 1)
    { id := "2", supplier_id := "sup1", buyer_id := "buy1", part_number_id := "1",
      serial_number := "CPU001X7002", status := Status.assigned, asn_id := some "1",
      created_date := 20240116, updated_date := 20240121,
      created_by := "admin", updated_by := "admin" }
    (getDefaultSerials.drop 2) rfl (by decide) (by decide) (by decide)

/-- C7 (code evidence): in both notification variants the observer set
is traversed with `Set.forEach(callback => callback())` and an
exception thrown by one observer propagates immediately: with two
registered observers of which the first throws, only the first is
invoked — the second never receives the notification — and in the
`GlobalStoreManager.setState` pipeline the escaping exception skips
`saveState`, so the triggering mutation is left unpersisted (the
backing record still holds the pre-mutation snapshot). -/
theorem observer_throw_stops_round :
    notifyAll [{ id := 1, throwsErr := true }, { id := 2, throwsErr := false }] = ([1], true) ∧
    gsSetState
        { mem := defaultStore 0, backing := some (defaultStore 0),
          observers := [{ id := 1, throwsErr := true }, { id := 2, throwsErr := false }] }
        (defaultStore 5) =
      ({ mem := defaultStore 5, backing := some (defaultStore 0),
         observers := [{ id := 1, throwsErr := true }, { id := 2, throwsErr := false }] },
       [1], true) := by
  constructor <;> rfl

/-- C8: the bulk-generation scenario — prefix `CPU001X7`, start 1,
end 3 — produces exactly the serial numbers `CPU001X7001`,
`CPU001X7002`, `CPU001X7003` in that order, each with status
`unassigned`; and in general, for a non-blank prefix and
`start ≤ end` within the accepted range, the request generates one
record per integer of the inclusive range `[start, end]`, in
increasing order, whose serial number is the prefix followed by the
sequence number zero-padded to 3 digits, all `unassigned`. -/
theorem bulkGenerate_spec :
    (∀ (st : MState) (now : Nat), ∃ ss,
        (handleBulkGenerate st "1" "CPU001X7" 1 3 none [] now).2 = BulkResult.generated ss ∧
        ss.map (fun s => s.serial_number) = ["CPU001X7001", "CPU001X7002", "CPU001X7003"] ∧
        ss.all (fun s => s.status == Status.unassigned) = true)
    ∧ (∀ (st : MState) (productId pfx : String) (start endNum : Nat)
          (expiry : Option Nat) (attrs : List (String × String)) (now : Nat),
        trimChars pfx ≠ "" → start ≤ endNum → endNum - start ≤ 1000 →
        ∃ ss,
          (handleBulkGenerate st productId pfx start endNum expiry attrs now).2 =
            BulkResult.generated ss ∧
          ss.length = endNum + 1 - start ∧
          ∀ k, (hk : k < ss.length) →
            (ss.get ⟨k, hk⟩).serial_number = pfx ++ pad3 (start + k) ∧
            (ss.get ⟨k, hk⟩).status = Status.unassigned) := by
  constructor
  · intro st now
    exact ⟨generateSerials "1" "CPU001X7" 1 3 none [] now, rfl, rfl, rfl⟩
  · intro st productId pfx start endNum expiry attrs now htrim hle hcap
    have hg : (handleBulkGenerate st productId pfx start endNum expiry attrs now).2 =
        BulkResult.generated (generateSerials productId pfx start endNum expiry attrs now) := by
      rw [handleBulkGenerate, if_neg (not_or.mpr ⟨htrim, by omega⟩), if_neg (by omega)]
    refine ⟨generateSerials productId pfx start endNum expiry attrs now, hg, ?_, ?_⟩
    · simp [generateSerials, List.length_range']
    · intro k hk
      have hk2 : k < (List.range' start (endNum + 1 - start)).length := by
        simpa [generateSerials] using hk
      constructor
      · simp [generateSerials, List.get_eq_getElem, List.getElem_map, List.getElem_range'_1]
        rfl
      · simp [generateSerials, List.get_eq_getElem, List.getElem_map, List.getElem_range'_1]
        rfl

/-- C8 (witness): the general bulk-generation theorem applied to the
scenario input. -/
theorem bulkGenerate_spec_witness :
    trimChars "CPU001X7" ≠ "" ∧ (1 : Nat) ≤ 3 ∧ (3 : Nat) - 1 ≤ 1000 ∧
    (∃ ss,
        (handleBulkGenerate initState "1" "CPU001X7" 1 3 none [] 0).2 =
          BulkResult.generated ss ∧
        ss.length = 3 + 1 - 1 ∧
        ∀ k, (hk : k < ss.length) →
          (ss.get ⟨k, hk⟩).serial_number = "CPU001X7" ++ pad3 (1 + k) ∧
          (ss.get ⟨k, hk⟩).status = Status.unassigned) :=
  ⟨by decide, by decide, by decide,
   bulkGenerate_spec.2 initState "1" "CPU001X7" 1 3 none [] 0 (by decide) (by decide) (by decide)⟩

/-- C9 (code evidence): a request with `end - start > 1000` is rejected
before anything is built — the manager state is returned untouched, no
serial is created — but the cap is off by one with respect to the
claim: the request `start = 1, end = 1001` satisfies
`end - start = 1000`, is accepted, and generates 1001 units, although
the form's own rejection message states "Maximum 1000 serials can be
generated at once". -/
theorem bulkGenerate_cap_offByOne :
    handleBulkGenerate initState "1" "A" 1 1002 none [] 0 = (initState, BulkResult.rangeTooLarge) ∧
    (∃ ss, (handleBulkGenerate initState "1" "A" 1 1001 none [] 0).2 = BulkResult.generated ss ∧
      ss.length = 1001 ∧ 1000 < ss.length) := by
  have hlen : (generateSerials "1" "A" 1 1001 none [] 0).length = 1001 := by
    simp [generateSerials, List.length_range']
  exact ⟨rfl, ⟨generateSerials "1" "A" 1 1001 none [] 0, rfl, hlen, by rw [hlen]; omega⟩⟩

end SerialSparkle
